import Mathlib

/-!
Shallow embedding of `src/risk_pipeline.py` (device-risk scoring pipeline)
and verification of the specification's claims about it.

Modelling conventions:
* Python values that are "None or a string" are `Option String` (`none` = Python
  `None`); the empty string is a real (falsy) string, distinct from `None`.
* Coordinates are rationals; a pandas-null (`NaN`) latitude/longitude is `none`.
* Parsed timestamps (`pd.to_datetime(..., errors='coerce')` followed by
  `.dt.to_period('M')`) are carried on each row as `Option (ℤ × ℤ)`:
  `none` is `NaT` (unparseable), `some (m, t)` a timestamp in linearised
  year-month `m` at intra-month instant `t`.
* Side effects of the resolver (network call, rate-limit sleep) are recorded in
  an explicit event trace, and the mutable region cache is threaded explicitly.
-/

namespace RiskPipeline

/-- A Python value that is either `None` or a string: `none` models `None`,
`some s` a string (possibly empty). -/
abbrev RegionVal := Option String

/-- Python truthiness of a `None`-or-string value: `None` and `""` are falsy. -/
def truthy : RegionVal → Bool
  | none => false
  | some s => s ≠ ""

/-- Python `a or b` restricted to `None`-or-string values: the first operand if
it is truthy, otherwise the second operand verbatim. -/
def pyOr (a b : RegionVal) : RegionVal := if truthy a then a else b

/-- Python `dict.get k` on an address dict, modelled as an association list of
string keys and values. -/
def dictGet (addr : List (String × String)) (k : String) : Option String :=
  (addr.find? (fun e => e.1 == k)).map (fun e => e.2)

/-- The field-preference chain of source lines 60–64:
`address.get('city') or address.get('town') or address.get('county') or
address.get('state') or address.get('country')`. -/
def preferredRegion (addr : List (String × String)) : RegionVal :=
  pyOr (dictGet addr "city") (pyOr (dictGet addr "town") (pyOr (dictGet addr "county")
    (pyOr (dictGet addr "state") (dictGet addr "country"))))

/-- Outcome of one call to `geolocator.reverse`: `err` is a raised exception
(provider error or timeout); `ok addr` is a returned location whose
`raw['address']` dict is `addr`. A falsy location (`None`) and a missing or
empty address dict all take the same `else` branch in the source, so both are
modelled by `ok []`. -/
inductive GeoResult
  | err
  | ok (addr : List (String × String))
deriving DecidableEq, Repr

/-- The external reverse-geocoding provider, as a function of the raw
(unrounded) coordinate passed at source line 56. -/
abbrev Geocoder := ℚ → ℚ → GeoResult

/-- Python 3 `round` to an integer: round-half-to-even. -/
def bankersRound (q : ℚ) : ℤ :=
  if q - (⌊q⌋ : ℚ) < 1/2 then ⌊q⌋
  else if 1/2 < q - (⌊q⌋ : ℚ) then ⌊q⌋ + 1
  else if ⌊q⌋ % 2 = 0 then ⌊q⌋ else ⌊q⌋ + 1

/-- Python `round(x, 5)`: rounding to five decimal places. -/
def round5 (q : ℚ) : ℚ := (bankersRound (q * 100000) : ℚ) / 100000

/-- The cache key of source line 50: the coordinate rounded to 5 decimals. -/
abbrev CoordKey := ℚ × ℚ

/-- The in-memory region cache, a Python dict from rounded coordinate to the
cached region value (a string, the sentinel "Unknown", or `None`). -/
abbrev RegionCache := List (CoordKey × RegionVal)

/-- Dict lookup: the value stored under `k`, if `k` is a key of the cache. -/
def cacheGet (c : RegionCache) (k : CoordKey) : Option RegionVal :=
  (c.find? (fun e => decide (e.1 = k))).map (fun e => e.2)

/-- Dict assignment `cache[key] = v`: replaces the binding if the key is
present, otherwise appends a new binding. -/
def cachePut (c : RegionCache) (k : CoordKey) (v : RegionVal) : RegionCache :=
  if (c.find? (fun e => decide (e.1 = k))).isSome then
    c.map (fun e => if e.1 = k then (k, v) else e)
  else c ++ [(k, v)]

/-- Observable events of a pipeline run: a network call to the geocoding
provider, the rate-limit sleep, the start of resolution of one record, the
saving of the cache file, and the risk-classification step. -/
inductive Ev
  | net
  | sleep
  | resolveRec
  | cacheSave
  | classify
deriving DecidableEq, Repr

/-- Shallow embedding of `get_region_cached` (source lines 49–72). Returns the
region value, the cache after the call, and the trace of network/sleep events.
The source computes `key` before the null test, but a `NaN` coordinate makes
`pd.isnull` return early before the key is ever used, so the null cases are
folded into the catch-all match arm. On the exception path (source lines
70–72) control jumps from `geolocator.reverse` straight to `except`, so the
trace records the network call with no following sleep. -/
def get_region_cached (geocoder : Geocoder) (lat lon : Option ℚ)
    (cache : RegionCache) : RegionVal × RegionCache × List Ev :=
  match lat, lon with
  | some la, some lo =>
    if la = 0 ∨ lo = 0 then (some "Unknown", cache, [])
    else
      let key : CoordKey := (round5 la, round5 lo)
      match cacheGet cache key with
      | some v => (v, cache, [])
      | none =>
        match geocoder la lo with
        | GeoResult.err => (some "Unknown", cachePut cache key (some "Unknown"), [Ev.net])
        | GeoResult.ok addr =>
          if addr.isEmpty then
            (some "Unknown", cachePut cache key (some "Unknown"), [Ev.net, Ev.sleep])
          else
            let region := preferredRegion addr
            (region, cachePut cache key region, [Ev.net, Ev.sleep])
  | _, _ => (some "Unknown", cache, [])

/-- One row of the production export after the device-id join. `DEVICE_ID` is
`none` when the cell is null; `created` is the pandas-parsed `CREATED_TIME`
(`none` = `NaT`); `REGION` is the value of the `REGION` column when that column
already exists in the input, otherwise it is filled in by resolution. -/
structure RawRow where
  DEVICE_ID : Option String
  CIF : String
  LATITUDE : Option ℚ
  LONGITUDE : Option ℚ
  created : Option (ℤ × ℤ)
  REGION : RegionVal := none
deriving DecidableEq, Repr

/-- Shallow embedding of `map_all_regions` (source lines 74–81): apply
`get_region_cached` to every row in order, threading the cache, writing the
result into the row's `REGION` column, and concatenating the event traces.
Each processed record contributes a leading `resolveRec` event marking that
resolution work on that record happened. -/
def map_all_regions (geocoder : Geocoder) (rows : List RawRow)
    (cache : RegionCache) : List RawRow × RegionCache × List Ev :=
  match rows with
  | [] => ([], cache, [])
  | r :: rest =>
    let step := get_region_cached geocoder r.LATITUDE r.LONGITUDE cache
    let next := map_all_regions geocoder rest step.2.1
    ({ r with REGION := step.1 } :: next.1, next.2.1,
      (Ev.resolveRec :: step.2.2) ++ next.2.2)

/-- Whether every network-call event in a trace is immediately followed by a
rate-limit sleep event. -/
def netFollowedBySleep : List Ev → Bool
  | [] => true
  | Ev.net :: rest =>
    match rest with
    | Ev.sleep :: _ => netFollowedBySleep rest
    | _ => false
  | _ :: rest => netFollowedBySleep rest

/-- One per-customer classification result (the dict built at source
line 111). `cohort` is the year-month of the group's earliest timestamp,
`none` when every timestamp in the group is `NaT`. -/
structure RiskResult where
  CIF : String
  score : ℕ
  label : String
  region : String
  cohort : Option ℤ
deriving DecidableEq, Repr

/-- `group['BULAN_TAHUN'].nunique()`: the number of distinct year-month
periods among the group's parseable timestamps (`nunique` drops `NaT`). -/
def monthsOf (g : List RawRow) : ℕ :=
  ((g.filterMap (fun r => r.created)).map Prod.fst).dedup.length

/-- `group['DEVICE_ID'].nunique()`: the number of distinct non-null device
identifiers in the group. -/
def devicesOf (g : List RawRow) : ℕ :=
  (g.filterMap (fun r => r.DEVICE_ID)).dedup.length

/-- The earlier of two timestamps, ordering (month, instant) pairs
lexicographically. -/
def tsMin (a b : ℤ × ℤ) : ℤ × ℤ :=
  if a.1 < b.1 ∨ (a.1 = b.1 ∧ a.2 ≤ b.2) then a else b

/-- The group's cohort: the year-month of its minimum parseable timestamp
(`groupby('CIF')['CREATED_TIME'].transform('min')` followed by
`.dt.to_period('M')`, source line 88); `none` when all timestamps are `NaT`. -/
def cohortOf (g : List RawRow) : Option ℤ :=
  match g.filterMap (fun r => r.created) with
  | [] => none
  | t :: ts => some (ts.foldl tsMin t).1

/-- The decision table of source lines 94–108, as a function of the pair
(distinct months, distinct devices); the trailing `else` of the source is the
final default branch. -/
def scoreLabel (months devices : ℕ) : ℕ × String :=
  if months = 1 ∧ devices = 1 then (1, "Transient")
  else if 1 < months ∧ devices = 1 then (2, "Persistent")
  else if months = 1 ∧ 1 < devices then (2, "Multi-device")
  else if 1 < months ∧ 1 < devices then (3, "Critical")
  else (1, "Transient")

/-- The better of two mode candidates over the value list `vs`: the one with
the larger count; on a count tie the lexicographically smaller string (pandas
`Series.mode()` returns the tied modes sorted ascending, and `[0]` takes the
smallest). -/
def betterMode (vs : List String) (b c : String) : String :=
  if vs.count b < vs.count c ∨ (vs.count c = vs.count b ∧ c < b) then c else b

/-- `vs.mode()[0]` for a list of strings: the most frequent value, ties broken
toward the lexicographically smallest; `none` when the list is empty. -/
def modeMin (vs : List String) : Option String :=
  match vs.dedup with
  | [] => none
  | c :: cs => some (cs.foldl (betterMode vs) c)

/-- Source line 109: `group['REGION'].mode()[0] if group['REGION'].notna().any()
else "Unknown"` — pandas `mode` drops nulls, so this is the mode of the
non-null region values, and "Unknown" when there are none. -/
def dominantRegion (regs : List RegionVal) : String :=
  match modeMin (regs.filterMap id) with
  | none => "Unknown"
  | some m => m

/-- The group of `df.groupby('CIF')` for customer `c`: the rows whose `CIF`
equals `c`. -/
def groupOf (rows : List RawRow) (c : String) : List RawRow :=
  rows.filter (fun r => r.CIF == c)

/-- The non-null region values of a group, in row order (what pandas `mode`
actually aggregates after dropping nulls). -/
def nonNullRegions (g : List RawRow) : List String :=
  (g.map (fun r => r.REGION)).filterMap id

/-- Shallow embedding of `compute_risk_scoring` (source lines 84–112): group
the rows by `CIF` and emit one `RiskResult` per distinct customer identifier.
pandas `groupby` sorts the group keys; the embedding keeps first-seen key
order, which agrees with the source up to the order of the result list (no
claim concerns result order). -/
def compute_risk_scoring (rows : List RawRow) : List RiskResult :=
  ((rows.map (fun r => r.CIF)).dedup).map (fun c =>
    let g := groupOf rows c
    let sl := scoreLabel (monthsOf g) (devicesOf g)
    { CIF := c, score := sl.1, label := sl.2,
      region := dominantRegion (g.map (fun r => r.REGION)),
      cohort := cohortOf g })

/-- The console summary built by `impacted_customer_summary` (source lines
171–181): the customer count, the two label counts, and the two printed
percentages. -/
structure ImpactSummary where
  total : ℕ
  transientCount : ℕ
  persistentCount : ℕ
  transientPct : Option ℚ
  persistentPct : Option ℚ
deriving DecidableEq, Repr

/-- NumPy true division of integer counts (`np.int64 / int`): division by zero
does not raise; it emits a runtime warning and yields a non-finite float
(`nan` for 0/0, `inf` otherwise), modelled as `none`. -/
def npDiv (a b : ℕ) : Option ℚ := if b = 0 then none else some ((a : ℚ) / (b : ℚ))

/-- Shallow embedding of `impacted_customer_summary` (source lines 171–181).
`transient_risk` and `persistent_risk` are pandas boolean sums, hence NumPy
integers, so the percentage divisions follow NumPy semantics (`npDiv`). -/
def impacted_customer_summary (res : List RiskResult) : ImpactSummary :=
  let n := ((res.map (fun r => r.CIF)).dedup).length
  let t := res.countP (fun r => r.label == "Transient")
  let p := res.countP (fun r => !(r.label == "Transient"))
  { total := n, transientCount := t, persistentCount := p,
    transientPct := npDiv t n, persistentPct := npDiv p n }

/-- Serialization of a string into the flat integer token stream modelling the
pickle byte stream: its length followed by its character code points. -/
def encodeStr (s : String) : List ℤ :=
  (s.length : ℤ) :: s.data.map (fun ch => (ch.toNat : ℤ))

/-- Serialization of a cached region value: tag 0 for `None`, tag 1 followed by
the string for a string. -/
def encodeRegionVal : RegionVal → List ℤ
  | none => [0]
  | some s => 1 :: encodeStr s

/-- Serialization of a rational coordinate: numerator then denominator. -/
def encodeRat (q : ℚ) : List ℤ := [q.num, (q.den : ℤ)]

/-- Serialization of one cache entry: the two rounded coordinates then the
region value. -/
def encodeEntry (e : CoordKey × RegionVal) : List ℤ :=
  encodeRat e.1.1 ++ encodeRat e.1.2 ++ encodeRegionVal e.2

/-- `pickle.dump` of the cache dict, modelled as an entry count followed by the
serialized entries. -/
def pickleDump (c : RegionCache) : List ℤ :=
  (c.length : ℤ) :: (c.map encodeEntry).flatten

/-- Parse a string from the token stream, returning the remainder. -/
def decodeStr (ts : List ℤ) : Option (String × List ℤ) :=
  match ts with
  | [] => none
  | n :: rest =>
    if 0 ≤ n ∧ n.toNat ≤ rest.length then
      some (⟨(rest.take n.toNat).map (fun i => Char.ofNat i.toNat)⟩, rest.drop n.toNat)
    else none

/-- Parse a region value from the token stream. -/
def decodeRegionVal (ts : List ℤ) : Option (RegionVal × List ℤ) :=
  match ts with
  | 0 :: rest => some (none, rest)
  | 1 :: rest => (decodeStr rest).map (fun p => (some p.1, p.2))
  | _ => none

/-- Parse a rational from the token stream. -/
def decodeRat (ts : List ℤ) : Option (ℚ × List ℤ) :=
  match ts with
  | n :: d :: rest => some ((n : ℚ) / (d : ℚ), rest)
  | _ => none

/-- Parse `k` cache entries and require the stream to be fully consumed. -/
def decodeEntries : ℕ → List ℤ → Option RegionCache
  | 0, ts => if ts.isEmpty then some [] else none
  | k + 1, ts => do
    let p1 ← decodeRat ts
    let p2 ← decodeRat p1.2
    let p3 ← decodeRegionVal p2.2
    let rest ← decodeEntries k p3.2
    pure (((p1.1, p2.1), p3.1) :: rest)

/-- `pickle.load`: parse the full cache mapping back from the token stream;
`none` models an unpickling error on a corrupt stream. -/
def pickleLoad (ts : List ℤ) : Option RegionCache :=
  match ts with
  | [] => none
  | n :: rest => if 0 ≤ n then decodeEntries n.toNat rest else none

/-- The cache persistence file: `none` when the file is absent, otherwise its
serialized contents. -/
abbrev CacheFile := Option (List ℤ)

/-- Shallow embedding of `save_region_cache` (source lines 43–46): overwrite
the file with the pickled full mapping, whatever was there before. -/
def save_region_cache (cache : RegionCache) (_fs : CacheFile) : CacheFile :=
  some (pickleDump cache)

/-- Shallow embedding of `load_region_cache` (source lines 33–41): a missing
file (`FileNotFoundError`) yields the empty mapping; a present file is
unpickled, and an unpickling failure (`none`) is not caught by the source. -/
def load_region_cache (fs : CacheFile) : Option RegionCache :=
  match fs with
  | none => some []
  | some ts => pickleLoad ts

/-- A loaded production dataframe: its column list and its rows. Row fields
for columns absent from `cols` are never consulted, because the pipeline
aborts on the column validation before touching any row. -/
structure DataFrame where
  cols : List String
  rows : List RawRow

/-- The required-column list `wajib` of source line 191. -/
def wajib : List String :=
  ["DEVICE_ID", "CIF", "LATITUDE", "LONGITUDE", "CREATED_TIME"]

/-- The first required column absent from `cols`: the assert loop of source
lines 192–193 fails on exactly this column. -/
def firstMissing (cols : List String) : Option String :=
  wajib.find? (fun w => !(cols.contains w))

/-- Shallow embedding of `filter_production_by_deviceid` (source lines 27–30):
keep the rows whose stringified device id (`astype(str)`; a null cell
stringifies to "nan") is among the flagged device ids. -/
def filter_production_by_deviceid (rows : List RawRow) (deviceIds : List String) :
    List RawRow :=
  rows.filter (fun r => deviceIds.contains (r.DEVICE_ID.getD "nan"))

/-- Shallow embedding of `main_pipeline` (source lines 184–214), up to the
risk-result dataframe (the chart rendering, heatmap export and spreadsheet
export that follow are pure output plumbing). Returns the event trace of the
run and either the configuration error raised by the column validation or the
computed risk results. The initial cache `cache0` stands for the result of
`load_region_cache`, which the source calls only after validation passes. -/
def main_pipeline (deviceIds : List String) (dfProd : DataFrame)
    (geocoder : Geocoder) (cache0 : RegionCache) :
    List Ev × Except String (List RiskResult) :=
  match firstMissing dfProd.cols with
  | some w => ([], Except.error ("Missing required column: " ++ w))
  | none =>
    let dfJoin := filter_production_by_deviceid dfProd.rows deviceIds
    if dfProd.cols.contains "REGION" then
      ([Ev.classify], Except.ok (compute_risk_scoring dfJoin))
    else
      let res := map_all_regions geocoder dfJoin cache0
      (res.2.2 ++ [Ev.cacheSave, Ev.classify],
        Except.ok (compute_risk_scoring res.1))

/-! ## Serialization round-trip lemmas -/

theorem decodeRat_encodeRat (q : ℚ) (ts : List ℤ) :
    decodeRat (encodeRat q ++ ts) = some (q, ts) := by
  simp [decodeRat, encodeRat, Rat.num_div_den]

theorem decodeStr_encodeStr (s : String) (ts : List ℤ) :
    decodeStr (encodeStr s ++ ts) = some (s, ts) := by
  have hlen : (s.data.map (fun ch => ((ch.toNat : ℤ)))).length = s.length := by
    rw [List.length_map]
    rfl
  unfold decodeStr encodeStr
  simp only [List.cons_append]
  rw [if_pos]
  · rw [Int.toNat_natCast, List.take_left' hlen, List.drop_left' hlen]
    rw [List.map_map]
    have hmap : s.data.map ((fun i : ℤ => Char.ofNat i.toNat) ∘ fun ch => (ch.toNat : ℤ))
        = s.data := by
      rw [List.map_congr_left (fun ch _ => by
        show Char.ofNat ((ch.toNat : ℤ)).toNat = ch
        rw [Int.toNat_natCast, Char.ofNat_toNat])]
      exact List.map_id _
    rw [hmap]
  · constructor
    · exact Int.natCast_nonneg _
    · rw [Int.toNat_natCast, List.length_append, hlen]
      exact Nat.le_add_right _ _

theorem decodeRegionVal_encodeRegionVal (v : RegionVal) (ts : List ℤ) :
    decodeRegionVal (encodeRegionVal v ++ ts) = some (v, ts) := by
  cases v with
  | none => rfl
  | some s =>
    simp only [encodeRegionVal, List.cons_append]
    rw [decodeRegionVal]
    simp [decodeStr_encodeStr]

theorem decodeEntries_encode (c : RegionCache) :
    decodeEntries c.length ((c.map encodeEntry).flatten) = some c := by
  induction c with
  | nil => rfl
  | cons e rest ih =>
    simp only [List.length_cons, List.map_cons, List.flatten_cons, decodeEntries,
      encodeEntry, List.append_assoc]
    simp [decodeRat_encodeRat, decodeRegionVal_encodeRegionVal, ih]

/-! ## Cache and resolver lemmas -/

theorem cacheGet_eq_none_iff (c : RegionCache) (k : CoordKey) :
    cacheGet c k = none ↔ c.find? (fun e => decide (e.1 = k)) = none := by
  unfold cacheGet
  cases c.find? (fun e => decide (e.1 = k)) <;> simp

theorem cachePut_of_miss (c : RegionCache) (k : CoordKey) (v : RegionVal)
    (h : cacheGet c k = none) : cachePut c k v = c ++ [(k, v)] := by
  unfold cachePut
  rw [if_neg]
  rw [cacheGet_eq_none_iff] at h
  simp [h]

theorem cacheGet_append_single_self (c : RegionCache) (k : CoordKey) (v : RegionVal)
    (h : cacheGet c k = none) : cacheGet (c ++ [(k, v)]) k = some v := by
  induction c with
  | nil => simp [cacheGet]
  | cons e es ih =>
    by_cases he : e.1 = k
    · exfalso
      simp [cacheGet, List.find?_cons, he] at h
    · simp only [cacheGet, List.cons_append, List.find?_cons] at h ⊢
      rw [decide_eq_false he] at h ⊢
      exact ih h

theorem cacheGet_append_of_some (c : RegionCache) (rest : RegionCache) (k : CoordKey)
    (v : RegionVal) (h : cacheGet c k = some v) : cacheGet (c ++ rest) k = some v := by
  induction c with
  | nil => simp [cacheGet] at h
  | cons e es ih =>
    by_cases he : e.1 = k
    · simp only [cacheGet, List.cons_append, List.find?_cons] at h ⊢
      rw [decide_eq_true he] at h ⊢
      exact h
    · simp only [cacheGet, List.cons_append, List.find?_cons] at h ⊢
      rw [decide_eq_false he] at h ⊢
      exact ih h

theorem get_region_cached_eq (g : Geocoder) (la lo : ℚ) (cache : RegionCache)
    (h1 : la ≠ 0) (h2 : lo ≠ 0) :
    get_region_cached g (some la) (some lo) cache =
      match cacheGet cache (round5 la, round5 lo) with
      | some v => (v, cache, [])
      | none =>
        match g la lo with
        | GeoResult.err =>
          (some "Unknown", cachePut cache (round5 la, round5 lo) (some "Unknown"), [Ev.net])
        | GeoResult.ok addr =>
          if addr.isEmpty then
            (some "Unknown", cachePut cache (round5 la, round5 lo) (some "Unknown"),
              [Ev.net, Ev.sleep])
          else
            (preferredRegion addr,
              cachePut cache (round5 la, round5 lo) (preferredRegion addr),
              [Ev.net, Ev.sleep]) := by
  simp only [get_region_cached]
  rw [if_neg (by tauto : ¬(la = 0 ∨ lo = 0))]

theorem resolve_hit (g : Geocoder) (la lo : ℚ) (cache : RegionCache) (v : RegionVal)
    (h1 : la ≠ 0) (h2 : lo ≠ 0)
    (hhit : cacheGet cache (round5 la, round5 lo) = some v) :
    get_region_cached g (some la) (some lo) cache = (v, cache, []) := by
  rw [get_region_cached_eq g la lo cache h1 h2, hhit]

theorem resolve_miss_err (g : Geocoder) (la lo : ℚ) (cache : RegionCache)
    (h1 : la ≠ 0) (h2 : lo ≠ 0)
    (hmiss : cacheGet cache (round5 la, round5 lo) = none)
    (herr : g la lo = GeoResult.err) :
    get_region_cached g (some la) (some lo) cache =
      (some "Unknown", cachePut cache (round5 la, round5 lo) (some "Unknown"),
        [Ev.net]) := by
  rw [get_region_cached_eq g la lo cache h1 h2, hmiss, herr]

theorem resolve_miss_empty (g : Geocoder) (la lo : ℚ) (cache : RegionCache)
    (h1 : la ≠ 0) (h2 : lo ≠ 0)
    (hmiss : cacheGet cache (round5 la, round5 lo) = none)
    (hok : g la lo = GeoResult.ok []) :
    get_region_cached g (some la) (some lo) cache =
      (some "Unknown", cachePut cache (round5 la, round5 lo) (some "Unknown"),
        [Ev.net, Ev.sleep]) := by
  rw [get_region_cached_eq g la lo cache h1 h2, hmiss, hok]
  rfl

theorem resolve_miss_addr (g : Geocoder) (la lo : ℚ) (cache : RegionCache)
    (addr : List (String × String)) (h1 : la ≠ 0) (h2 : lo ≠ 0)
    (hmiss : cacheGet cache (round5 la, round5 lo) = none)
    (hok : g la lo = GeoResult.ok addr) (hne : addr ≠ []) :
    get_region_cached g (some la) (some lo) cache =
      (preferredRegion addr,
        cachePut cache (round5 la, round5 lo) (preferredRegion addr),
        [Ev.net, Ev.sleep]) := by
  rw [get_region_cached_eq g la lo cache h1 h2, hmiss, hok]
  simp [List.isEmpty_eq_true, hne]

theorem resolve_caches_key (g : Geocoder) (la lo : ℚ) (cache : RegionCache)
    (h1 : la ≠ 0) (h2 : lo ≠ 0) :
    cacheGet (get_region_cached g (some la) (some lo) cache).2.1
        (round5 la, round5 lo) =
      some (get_region_cached g (some la) (some lo) cache).1 := by
  cases hc : cacheGet cache (round5 la, round5 lo) with
  | some v =>
    rw [resolve_hit g la lo cache v h1 h2 hc]
    exact hc
  | none =>
    have hput : ∀ w : RegionVal,
        cacheGet (cachePut cache (round5 la, round5 lo) w) (round5 la, round5 lo)
          = some w := by
      intro w
      rw [cachePut_of_miss cache _ w hc]
      exact cacheGet_append_single_self cache _ w hc
    cases hg : g la lo with
    | err =>
      rw [resolve_miss_err g la lo cache h1 h2 hc hg]
      exact hput (some "Unknown")
    | ok addr =>
      cases addr with
      | nil =>
        rw [resolve_miss_empty g la lo cache h1 h2 hc hg]
        exact hput (some "Unknown")
      | cons f fs =>
        rw [resolve_miss_addr g la lo cache (f :: fs) h1 h2 hc hg (by simp)]
        exact hput (preferredRegion (f :: fs))

theorem resolve_preserves_entry (g : Geocoder) (la lo : ℚ) (cache : RegionCache)
    (k : CoordKey) (v : RegionVal) (h1 : la ≠ 0) (h2 : lo ≠ 0)
    (h : cacheGet cache k = some v) :
    cacheGet (get_region_cached g (some la) (some lo) cache).2.1 k = some v := by
  cases hc : cacheGet cache (round5 la, round5 lo) with
  | some w =>
    rw [resolve_hit g la lo cache w h1 h2 hc]
    exact h
  | none =>
    have hput : ∀ w : RegionVal,
        cacheGet (cachePut cache (round5 la, round5 lo) w) k = some v := by
      intro w
      rw [cachePut_of_miss cache _ w hc]
      exact cacheGet_append_of_some cache _ k v h
    cases hg : g la lo with
    | err =>
      rw [resolve_miss_err g la lo cache h1 h2 hc hg]
      exact hput (some "Unknown")
    | ok addr =>
      cases addr with
      | nil =>
        rw [resolve_miss_empty g la lo cache h1 h2 hc hg]
        exact hput (some "Unknown")
      | cons f fs =>
        rw [resolve_miss_addr g la lo cache (f :: fs) h1 h2 hc hg (by simp)]
        exact hput (preferredRegion (f :: fs))

theorem resolve_sentinel (g : Geocoder) (lat lon : Option ℚ) (cache : RegionCache)
    (h : lat = none ∨ lon = none ∨ lat = some 0 ∨ lon = some 0) :
    get_region_cached g lat lon cache = (some "Unknown", cache, []) := by
  cases lat with
  | none => rfl
  | some la =>
    cases lon with
    | none => rfl
    | some lo =>
      have hz : la = 0 ∨ lo = 0 := by
        rcases h with h | h | h | h
        · exact absurd h (by simp)
        · exact absurd h (by simp)
        · exact Or.inl (by injection h)
        · exact Or.inr (by injection h)
      simp only [get_region_cached]
      rw [if_pos hz]

theorem bankersRound_of_lt_half (q : ℚ) (h : q - (⌊q⌋ : ℚ) < 1/2) :
    bankersRound q = ⌊q⌋ := by
  unfold bankersRound
  rw [if_pos h]

theorem round5_eq_of (q : ℚ) (n : ℤ) (hfl : ⌊q * 100000⌋ = n)
    (hlt : q * 100000 - (n : ℚ) < 1/2) : round5 q = (n : ℚ) / 100000 := by
  unfold round5
  rw [bankersRound_of_lt_half (q * 100000) (by rw [hfl]; exact hlt), hfl]

theorem round5_int (n : ℤ) : round5 (n : ℚ) = (n : ℚ) := by
  have hfl : ⌊(n : ℚ) * 100000⌋ = n * 100000 := by
    rw [show ((n : ℚ) * 100000) = ((n * 100000 : ℤ) : ℚ) by push_cast; ring]
    exact Int.floor_intCast _
  rw [round5_eq_of (n : ℚ) (n * 100000) hfl (by push_cast; norm_num)]
  push_cast
  field_simp

theorem round5_zero : round5 0 = 0 := by
  simpa using round5_int 0

theorem round5_one : round5 1 = 1 := by
  simpa using round5_int 1

theorem round5_micro : round5 (1/1000000) = 0 := by
  have hfl : ⌊(1/1000000 : ℚ) * 100000⌋ = 0 := by
    rw [Int.floor_eq_iff]
    norm_num
  have h := round5_eq_of (1/1000000) 0 hfl (by norm_num)
  rw [h]
  norm_num

theorem round5_justOverOne : round5 (1000001/1000000) = 1 := by
  have hfl : ⌊(1000001/1000000 : ℚ) * 100000⌋ = 100000 := by
    rw [Int.floor_eq_iff]
    norm_num
  have h := round5_eq_of (1000001/1000000) 100000 hfl (by norm_num)
  rw [h]
  norm_num

theorem preferredRegion_eq_none (addr : List (String × String))
    (h : ∀ f ∈ ["city", "town", "county", "state", "country"], dictGet addr f = none) :
    preferredRegion addr = none := by
  unfold preferredRegion
  rw [h "city" (by simp), h "town" (by simp), h "county" (by simp),
    h "state" (by simp), h "country" (by simp)]
  rfl

/-! ## Claim theorems -/

/-- C8: saving a cache to the persistence file and loading it back yields the
same mapping, and loading an absent cache file yields the empty mapping rather
than an error. -/
theorem C8_cache_roundtrip :
    (∀ (c : RegionCache) (fs : CacheFile),
      load_region_cache (save_region_cache c fs) = some c) ∧
    load_region_cache none = some [] := by
  constructor
  · intro c fs
    show pickleLoad (pickleDump c) = some c
    rw [pickleDump]
    simp only [pickleLoad]
    rw [if_pos (Int.natCast_nonneg _), Int.toNat_natCast]
    exact decodeEntries_encode c
  · rfl

/-- C3: for a null or exactly-zero latitude or longitude, `get_region_cached`
returns "Unknown", leaves the cache exactly as it was, performs no network
call and no sleep, and its result does not depend on the cache contents (no
cache read). -/
theorem C3_sentinel_no_interaction (g : Geocoder) (lat lon : Option ℚ)
    (cache : RegionCache)
    (h : lat = none ∨ lon = none ∨ lat = some 0 ∨ lon = some 0) :
    get_region_cached g lat lon cache = (some "Unknown", cache, []) :=
  resolve_sentinel g lat lon cache h

/-- Witness for C3 at the concrete coordinate (0, 1). -/
theorem C3_sentinel_no_interaction_witness :
    get_region_cached (fun _ _ => GeoResult.err) (some 0) (some 1) [] =
      (some "Unknown", [], []) :=
  C3_sentinel_no_interaction (fun _ _ => GeoResult.err) (some 0) (some 1) []
    (Or.inr (Or.inr (Or.inl rfl)))

/-- C2 counterexample: when the provider returns a non-empty address in which
none of the preferred fields (city, town, county, state, country) is present,
`get_region_cached` returns the null value, not "Unknown", and caches the null
value under the rounded key — so a resolved record can carry a null region. -/
theorem C2_counterexample :
    (get_region_cached (fun _ _ => GeoResult.ok [("road", "Jalan Sudirman")])
        (some 1) (some 1) []).1 = none ∧
    (get_region_cached (fun _ _ => GeoResult.ok [("road", "Jalan Sudirman")])
        (some 1) (some 1) []).1 ≠ some "Unknown" ∧
    cacheGet (get_region_cached (fun _ _ => GeoResult.ok [("road", "Jalan Sudirman")])
        (some 1) (some 1) []).2.1 (1, 1) = some none := by
  have h := resolve_miss_addr (fun _ _ => GeoResult.ok [("road", "Jalan Sudirman")])
    1 1 [] [("road", "Jalan Sudirman")] one_ne_zero one_ne_zero rfl rfl (by simp)
  rw [h]
  refine ⟨rfl, by decide, ?_⟩
  rw [round5_one]
  rfl

/-- C2 (amended): on a provider error or an empty response the resolver stores
and returns "Unknown"; but when a non-empty address is returned with none of
the preferred fields present, the resolver stores and returns the null value
rather than "Unknown", so after batch resolution a record's region may be
null. -/
theorem C2_failure_handling (g : Geocoder) (la lo : ℚ) (cache : RegionCache)
    (h1 : la ≠ 0) (h2 : lo ≠ 0)
    (hmiss : cacheGet cache (round5 la, round5 lo) = none) :
    (g la lo = GeoResult.err →
      (get_region_cached g (some la) (some lo) cache).1 = some "Unknown" ∧
      cacheGet (get_region_cached g (some la) (some lo) cache).2.1
        (round5 la, round5 lo) = some (some "Unknown")) ∧
    (g la lo = GeoResult.ok [] →
      (get_region_cached g (some la) (some lo) cache).1 = some "Unknown" ∧
      cacheGet (get_region_cached g (some la) (some lo) cache).2.1
        (round5 la, round5 lo) = some (some "Unknown")) ∧
    (∀ addr, g la lo = GeoResult.ok addr → addr ≠ [] →
      (∀ f ∈ ["city", "town", "county", "state", "country"], dictGet addr f = none) →
      (get_region_cached g (some la) (some lo) cache).1 = none ∧
      cacheGet (get_region_cached g (some la) (some lo) cache).2.1
        (round5 la, round5 lo) = some none) := by
  have hput : ∀ w : RegionVal,
      cacheGet (cachePut cache (round5 la, round5 lo) w) (round5 la, round5 lo)
        = some w := by
    intro w
    rw [cachePut_of_miss cache _ w hmiss]
    exact cacheGet_append_single_self cache _ w hmiss
  refine ⟨?_, ?_, ?_⟩
  · intro herr
    rw [resolve_miss_err g la lo cache h1 h2 hmiss herr]
    exact ⟨rfl, hput (some "Unknown")⟩
  · intro hok
    rw [resolve_miss_empty g la lo cache h1 h2 hmiss hok]
    exact ⟨rfl, hput (some "Unknown")⟩
  · intro addr hok hne hfields
    rw [resolve_miss_addr g la lo cache addr h1 h2 hmiss hok hne]
    rw [preferredRegion_eq_none addr hfields]
    exact ⟨rfl, hput none⟩

/-- Witness for the amended C2 at the concrete coordinate (1, 1) with a
provider that raises. -/
theorem C2_failure_handling_witness :
    (get_region_cached (fun _ _ => GeoResult.err) (some 1) (some 1) []).1
        = some "Unknown" ∧
      cacheGet (get_region_cached (fun _ _ => GeoResult.err) (some 1) (some 1) []).2.1
        (round5 1, round5 1) = some (some "Unknown") :=
  (C2_failure_handling (fun _ _ => GeoResult.err) 1 1 [] one_ne_zero one_ne_zero
    rfl).1 rfl

/-- C4 counterexample: the coordinates (0, 5) and (0.000001, 5) round to the
same 5-decimal key, but the first call hits the zero-coordinate sentinel and
caches nothing, so the second call does invoke the network and returns a
different region than the first. -/
theorem C4_counterexample :
    (round5 0, round5 5) = (round5 (1/1000000), round5 5) ∧
    Ev.net ∈ (get_region_cached (fun _ _ => GeoResult.ok [("city", "Bandung")])
        (some (1/1000000)) (some 5)
        (get_region_cached (fun _ _ => GeoResult.ok [("city", "Bandung")])
          (some 0) (some 5) []).2.1).2.2 ∧
    (get_region_cached (fun _ _ => GeoResult.ok [("city", "Bandung")])
        (some (1/1000000)) (some 5)
        (get_region_cached (fun _ _ => GeoResult.ok [("city", "Bandung")])
          (some 0) (some 5) []).2.1).1 ≠
      (get_region_cached (fun _ _ => GeoResult.ok [("city", "Bandung")])
        (some 0) (some 5) []).1 := by
  have hfirst := resolve_sentinel (fun _ _ => GeoResult.ok [("city", "Bandung")])
    (some 0) (some 5) [] (Or.inr (Or.inr (Or.inl rfl)))
  have hsecond := resolve_miss_addr (fun _ _ => GeoResult.ok [("city", "Bandung")])
    (1/1000000) 5 [] [("city", "Bandung")] (by norm_num) (by norm_num) rfl rfl (by simp)
  simp only [hfirst]
  simp only [hsecond]
  refine ⟨?_, by simp, by decide⟩
  rw [round5_zero, round5_micro]

/-- C4 (amended): for two resolve calls whose coordinates are non-null and
non-zero and round to the same 5-decimal key, the second call returns the same
region as the first, leaves the cache unchanged, and performs no network call
and no sleep; moreover the first call never overwrites an entry already in the
cache. -/
theorem C4_cache_idempotent (g : Geocoder) (la lo la2 lo2 : ℚ) (cache : RegionCache)
    (h1 : la ≠ 0) (h2 : lo ≠ 0) (h3 : la2 ≠ 0) (h4 : lo2 ≠ 0)
    (h5 : round5 la2 = round5 la) (h6 : round5 lo2 = round5 lo) :
    (get_region_cached g (some la2) (some lo2)
        (get_region_cached g (some la) (some lo) cache).2.1).1 =
      (get_region_cached g (some la) (some lo) cache).1 ∧
    (get_region_cached g (some la2) (some lo2)
        (get_region_cached g (some la) (some lo) cache).2.1).2.1 =
      (get_region_cached g (some la) (some lo) cache).2.1 ∧
    (get_region_cached g (some la2) (some lo2)
        (get_region_cached g (some la) (some lo) cache).2.1).2.2 = [] ∧
    (∀ k v, cacheGet cache k = some v →
      cacheGet (get_region_cached g (some la) (some lo) cache).2.1 k = some v) := by
  have hkey : cacheGet (get_region_cached g (some la) (some lo) cache).2.1
      (round5 la2, round5 lo2) = some (get_region_cached g (some la) (some lo) cache).1 := by
    rw [h5, h6]
    exact resolve_caches_key g la lo cache h1 h2
  have hs := resolve_hit g la2 lo2 (get_region_cached g (some la) (some lo) cache).2.1
    (get_region_cached g (some la) (some lo) cache).1 h3 h4 hkey
  rw [hs]
  exact ⟨rfl, rfl, rfl, fun k v hv => resolve_preserves_entry g la lo cache k v h1 h2 hv⟩

/-- Witness for the amended C4: two distinct coordinates rounding to the same
key, resolved back to back from the empty cache. -/
theorem C4_cache_idempotent_witness :
    (get_region_cached (fun _ _ => GeoResult.ok [("city", "Bandung")]) (some 1) (some 1)
        (get_region_cached (fun _ _ => GeoResult.ok [("city", "Bandung")])
          (some (1000001/1000000)) (some 1) []).2.1).1 =
      (get_region_cached (fun _ _ => GeoResult.ok [("city", "Bandung")])
        (some (1000001/1000000)) (some 1) []).1 ∧
    (get_region_cached (fun _ _ => GeoResult.ok [("city", "Bandung")]) (some 1) (some 1)
        (get_region_cached (fun _ _ => GeoResult.ok [("city", "Bandung")])
          (some (1000001/1000000)) (some 1) []).2.1).2.1 =
      (get_region_cached (fun _ _ => GeoResult.ok [("city", "Bandung")])
        (some (1000001/1000000)) (some 1) []).2.1 ∧
    (get_region_cached (fun _ _ => GeoResult.ok [("city", "Bandung")]) (some 1) (some 1)
        (get_region_cached (fun _ _ => GeoResult.ok [("city", "Bandung")])
          (some (1000001/1000000)) (some 1) []).2.1).2.2 = [] ∧
    (∀ k v, cacheGet ([] : RegionCache) k = some v →
      cacheGet (get_region_cached (fun _ _ => GeoResult.ok [("city", "Bandung")])
        (some (1000001/1000000)) (some 1) []).2.1 k = some v) := by
  have h := C4_cache_idempotent (fun _ _ => GeoResult.ok [("city", "Bandung")])
    (1000001/1000000) 1 1 1 [] (by norm_num) one_ne_zero one_ne_zero one_ne_zero
    (by rw [round5_one, round5_justOverOne]) rfl
  exact h

/-- C5 counterexample: on a provider exception the network call is made but
the mandatory delay is skipped (the exception jumps over `time.sleep`), so the
run contains a network call not followed by the delay. -/
theorem C5_counterexample :
    (get_region_cached (fun _ _ => GeoResult.err) (some 1) (some 1) []).2.2
        = [Ev.net] ∧
      Ev.sleep ∉ (get_region_cached (fun _ _ => GeoResult.err)
        (some 1) (some 1) []).2.2 := by
  have h := resolve_miss_err (fun _ _ => GeoResult.err) 1 1 []
    one_ne_zero one_ne_zero rfl rfl
  rw [h]
  exact ⟨rfl, by simp⟩

/-- C5 (amended): every network call whose provider invocation returns
(successfully or with an empty response) is immediately followed by the delay;
a provider invocation that raises produces a network call that is not followed
by the delay. -/
theorem C5_delay_after_network (g : Geocoder) (lat lon : Option ℚ)
    (cache : RegionCache) :
    (∀ la lo, lat = some la → lon = some lo → g la lo ≠ GeoResult.err →
      netFollowedBySleep (get_region_cached g lat lon cache).2.2 = true) ∧
    (∀ la lo, lat = some la → lon = some lo → la ≠ 0 → lo ≠ 0 →
      cacheGet cache (round5 la, round5 lo) = none → g la lo = GeoResult.err →
      (get_region_cached g lat lon cache).2.2 = [Ev.net]) := by
  constructor
  · intro la lo hla hlo hne
    subst hla
    subst hlo
    by_cases hz1 : la = 0
    · simp only [get_region_cached]
      rw [if_pos (Or.inl hz1)]
      rfl
    · by_cases hz2 : lo = 0
      · simp only [get_region_cached]
        rw [if_pos (Or.inr hz2)]
        rfl
      · cases hc : cacheGet cache (round5 la, round5 lo) with
        | some v =>
          rw [resolve_hit g la lo cache v hz1 hz2 hc]
          rfl
        | none =>
          cases hg : g la lo with
          | err => exact absurd hg hne
          | ok addr =>
            cases addr with
            | nil =>
              rw [resolve_miss_empty g la lo cache hz1 hz2 hc hg]
              rfl
            | cons f fs =>
              rw [resolve_miss_addr g la lo cache (f :: fs) hz1 hz2 hc hg (by simp)]
              rfl
  · intro la lo hla hlo hz1 hz2 hc hg
    subst hla
    subst hlo
    rw [resolve_miss_err g la lo cache hz1 hz2 hc hg]

/-- Witness for the amended C5 at the concrete coordinate (1, 1) with a
provider that returns a city. -/
theorem C5_delay_after_network_witness :
    netFollowedBySleep (get_region_cached (fun _ _ => GeoResult.ok [("city", "Bandung")])
        (some 1) (some 1) []).2.2 = true :=
  (C5_delay_after_network (fun _ _ => GeoResult.ok [("city", "Bandung")])
    (some 1) (some 1) []).1 1 1 rfl rfl (fun h => GeoResult.noConfusion h)

/-- C9 counterexample: on an empty result set the summary is produced without
any error and with NaN percentages (NumPy integer division by zero yields a
non-finite float instead of raising), i.e. the division is neither guarded nor
does it fail with a DivisionError-class outcome. -/
theorem C9_counterexample :
    impacted_customer_summary [] =
      { total := 0, transientCount := 0, persistentCount := 0,
        transientPct := none, persistentPct := none } := rfl

/-- C9 (amended): with zero customers the summary is still produced, and both
printed percentages are the NaN value arising from NumPy division by zero. -/
theorem C9_zero_customers_nan (res : List RiskResult)
    (h : ((res.map (fun r => r.CIF)).dedup).length = 0) :
    (impacted_customer_summary res).transientPct = none ∧
      (impacted_customer_summary res).persistentPct = none := by
  simp [impacted_customer_summary, npDiv, h]

/-- Witness for the amended C9 at the empty result set. -/
theorem C9_zero_customers_nan_witness :
    (impacted_customer_summary []).transientPct = none ∧
      (impacted_customer_summary []).persistentPct = none :=
  C9_zero_customers_nan [] rfl

/-- C6: when a required input column is absent, the pipeline aborts with a
configuration error naming a missing column, emits no events at all — in
particular no record resolution, no cache save and no classification — and
produces no result. -/
theorem C6_fail_fast (deviceIds : List String) (dfProd : DataFrame) (g : Geocoder)
    (cache0 : RegionCache) (h : ∃ w ∈ wajib, w ∉ dfProd.cols) :
    ∃ w, w ∈ wajib ∧ w ∉ dfProd.cols ∧
      main_pipeline deviceIds dfProd g cache0 =
        ([], Except.error ("Missing required column: " ++ w)) := by
  obtain ⟨w0, hw0, hnc⟩ := h
  have hsome : (wajib.find? (fun w => !(dfProd.cols.contains w))).isSome := by
    rw [List.find?_isSome]
    exact ⟨w0, hw0, by simp [hnc]⟩
  obtain ⟨w1, hw1⟩ := Option.isSome_iff_exists.mp hsome
  refine ⟨w1, List.mem_of_find?_eq_some hw1, ?_, ?_⟩
  · have hp := List.find?_some hw1
    simpa using hp
  · unfold main_pipeline firstMissing
    rw [hw1]

/-- Witness for C6: a production frame having only a CIF column aborts on the
first required column. -/
theorem C6_fail_fast_witness :
    ∃ w, w ∈ wajib ∧ w ∉ (DataFrame.mk ["CIF"] []).cols ∧
      main_pipeline [] (DataFrame.mk ["CIF"] []) (fun _ _ => GeoResult.err) [] =
        ([], Except.error ("Missing required column: " ++ w)) :=
  C6_fail_fast [] (DataFrame.mk ["CIF"] []) (fun _ _ => GeoResult.err) []
    ⟨"DEVICE_ID", by decide, by decide⟩

theorem compute_risk_scoring_map_CIF (rows : List RawRow) :
    (compute_risk_scoring rows).map (fun r => r.CIF)
      = (rows.map (fun r => r.CIF)).dedup := by
  unfold compute_risk_scoring
  rw [List.map_map]
  simp [Function.comp_def]

/-- C7: classification of the empty record set is the empty result list, and
every customer identifier appearing in the input yields exactly one
RiskResult. -/
theorem C7_one_result_per_customer :
    compute_risk_scoring [] = [] ∧
    ∀ (rows : List RawRow) (c : String), c ∈ rows.map (fun r => r.CIF) →
      ((compute_risk_scoring rows).map (fun r => r.CIF)).count c = 1 := by
  refine ⟨rfl, ?_⟩
  intro rows c hc
  rw [compute_risk_scoring_map_CIF]
  exact List.count_eq_one_of_mem (List.nodup_dedup _) (List.mem_dedup.mpr hc)

/-- Witness for C7 at a one-row record set. -/
theorem C7_one_result_per_customer_witness :
    ((compute_risk_scoring
          [{
            DEVICE_ID := some "d1",
            CIF := "C1",
            LATITUDE := none,
            LONGITUDE := none,
            created := none,
            REGION := none }]).map
      (fun r => r.CIF)).count "C1" = 1 :=
  C7_one_result_per_customer.2
    [{
      DEVICE_ID := some "d1",
      CIF := "C1",
      LATITUDE := none,
      LONGITUDE := none,
      created := none,
      REGION := none }] "C1" (by decide)

theorem scoreLabel_cases (m d : ℕ) :
    (m = 1 ∧ d = 1 → scoreLabel m d = (1, "Transient")) ∧
    (1 < m ∧ d = 1 → scoreLabel m d = (2, "Persistent")) ∧
    (m = 1 ∧ 1 < d → scoreLabel m d = (2, "Multi-device")) ∧
    (1 < m ∧ 1 < d → scoreLabel m d = (3, "Critical")) ∧
    (m = 0 → scoreLabel m d = (1, "Transient")) := by
  unfold scoreLabel
  refine ⟨?_, ?_, ?_, ?_, ?_⟩ <;> intro hcase
  · rw [if_pos hcase]
  · rw [if_neg (by omega), if_pos hcase]
  · rw [if_neg (by omega), if_neg (by omega), if_pos hcase]
  · rw [if_neg (by omega), if_neg (by omega), if_neg (by omega), if_pos hcase]
  · rw [if_neg (by omega), if_neg (by omega), if_neg (by omega), if_neg (by omega)]

/-- C1: for every result of classification, the score and label are exactly
the decision-table function of the pair (distinct active months, distinct
devices) of the customer's group, with the zero-valid-months case defaulting
to score 1, "Transient". -/
theorem C1_decision_table (rows : List RawRow) (r : RiskResult)
    (h : r ∈ compute_risk_scoring rows) :
    (r.score, r.label) = scoreLabel (monthsOf (groupOf rows r.CIF))
      (devicesOf (groupOf rows r.CIF)) ∧
    (monthsOf (groupOf rows r.CIF) = 1 ∧ devicesOf (groupOf rows r.CIF) = 1 →
      r.score = 1 ∧ r.label = "Transient") ∧
    (1 < monthsOf (groupOf rows r.CIF) ∧ devicesOf (groupOf rows r.CIF) = 1 →
      r.score = 2 ∧ r.label = "Persistent") ∧
    (monthsOf (groupOf rows r.CIF) = 1 ∧ 1 < devicesOf (groupOf rows r.CIF) →
      r.score = 2 ∧ r.label = "Multi-device") ∧
    (1 < monthsOf (groupOf rows r.CIF) ∧ 1 < devicesOf (groupOf rows r.CIF) →
      r.score = 3 ∧ r.label = "Critical") ∧
    (monthsOf (groupOf rows r.CIF) = 0 → r.score = 1 ∧ r.label = "Transient") := by
  obtain ⟨c, hc, rfl⟩ := List.mem_map.mp h
  dsimp only
  refine ⟨Prod.mk.eta.symm ▸ rfl, ?_, ?_, ?_, ?_, ?_⟩
  · intro hcase
    rw [(scoreLabel_cases _ _).1 hcase]
    exact ⟨rfl, rfl⟩
  · intro hcase
    rw [(scoreLabel_cases _ _).2.1 hcase]
    exact ⟨rfl, rfl⟩
  · intro hcase
    rw [(scoreLabel_cases _ _).2.2.1 hcase]
    exact ⟨rfl, rfl⟩
  · intro hcase
    rw [(scoreLabel_cases _ _).2.2.2.1 hcase]
    exact ⟨rfl, rfl⟩
  · intro hcase
    rw [(scoreLabel_cases _ _).2.2.2.2 hcase]
    exact ⟨rfl, rfl⟩

/-- Witness for C1 at a one-row group whose timestamp is unparseable (zero
valid months). -/
theorem C1_decision_table_witness :
    ({
      CIF := "C1",
      score := 1,
      label := "Transient",
      region := "Unknown",
      cohort := none } : RiskResult).score = 1 ∧
      ({
        CIF := "C1",
        score := 1,
        label := "Transient",
        region := "Unknown",
        cohort := none } : RiskResult).label = "Transient" :=
  (C1_decision_table
    [{
      DEVICE_ID := none,
      CIF := "C1",
      LATITUDE := none,
      LONGITUDE := none,
      created := none,
      REGION := none }]
    {
      CIF := "C1",
      score := 1,
      label := "Transient",
      region := "Unknown",
      cohort := none } (by decide)).2.2.2.2.2 (by decide)

theorem betterMode_or (vs : List String) (b c : String) :
    betterMode vs b c = b ∨ betterMode vs b c = c := by
  unfold betterMode
  split
  · exact Or.inr rfl
  · exact Or.inl rfl

theorem betterMode_left (vs : List String) (b c : String) :
    vs.count b ≤ vs.count (betterMode vs b c) ∧
      (vs.count b = vs.count (betterMode vs b c) → betterMode vs b c ≤ b) := by
  unfold betterMode
  split
  case isTrue h =>
    rcases h with hlt | ⟨heq, hlt⟩
    · exact ⟨Nat.le_of_lt hlt, fun he => absurd he (Nat.ne_of_lt hlt)⟩
    · exact ⟨Nat.le_of_eq heq.symm, fun _ => le_of_lt hlt⟩
  case isFalse h =>
    exact ⟨le_rfl, fun _ => le_rfl⟩

theorem betterMode_right (vs : List String) (b c : String) :
    vs.count c ≤ vs.count (betterMode vs b c) ∧
      (vs.count c = vs.count (betterMode vs b c) → betterMode vs b c ≤ c) := by
  unfold betterMode
  split
  case isTrue h =>
    exact ⟨le_rfl, fun _ => le_rfl⟩
  case isFalse h =>
    push_neg at h
    obtain ⟨h1, h2⟩ := h
    exact ⟨h1, fun he => not_lt.mp (fun hcb => h2 he hcb)⟩

theorem mode_inv_trans (vs : List String) (x y z : String)
    (hxy : vs.count x ≤ vs.count y ∧ (vs.count x = vs.count y → y ≤ x))
    (hyz : vs.count y ≤ vs.count z ∧ (vs.count y = vs.count z → z ≤ y)) :
    vs.count x ≤ vs.count z ∧ (vs.count x = vs.count z → z ≤ x) := by
  obtain ⟨ha, hb⟩ := hxy
  obtain ⟨hc, hd⟩ := hyz
  refine ⟨le_trans ha hc, fun he => ?_⟩
  have h1 : vs.count x = vs.count y := by omega
  have h2 : vs.count y = vs.count z := by omega
  exact le_trans (hd h2) (hb h1)

theorem foldl_betterMode_spec (vs : List String) (cs : List String) (c : String) :
    (cs.foldl (betterMode vs) c ∈ c :: cs) ∧
    ∀ x ∈ c :: cs, vs.count x ≤ vs.count (cs.foldl (betterMode vs) c) ∧
      (vs.count x = vs.count (cs.foldl (betterMode vs) c) →
        cs.foldl (betterMode vs) c ≤ x) := by
  induction cs generalizing c with
  | nil =>
    refine ⟨by simp, ?_⟩
    intro x hx
    rw [List.mem_singleton] at hx
    subst hx
    exact ⟨le_rfl, fun _ => le_rfl⟩
  | cons d ds ih =>
    simp only [List.foldl_cons]
    obtain ⟨ihmem, ihspec⟩ := ih (betterMode vs c d)
    constructor
    · rcases List.mem_cons.mp ihmem with he | hm
      · rcases betterMode_or vs c d with hb | hb
        · rw [he, hb]
          exact List.mem_cons_self _ _
        · rw [he, hb]
          exact List.mem_cons_of_mem _ (List.mem_cons_self _ _)
      · exact List.mem_cons_of_mem _ (List.mem_cons_of_mem _ hm)
    · intro x hx
      rcases List.mem_cons.mp hx with hxc | hx2
      · subst hxc
        exact mode_inv_trans vs x (betterMode vs x d) _ (betterMode_left vs x d)
          (ihspec _ (List.mem_cons_self _ _))
      · rcases List.mem_cons.mp hx2 with hxd | hx3
        · subst hxd
          exact mode_inv_trans vs x (betterMode vs c x) _ (betterMode_right vs c x)
            (ihspec _ (List.mem_cons_self _ _))
        · exact ihspec x (List.mem_cons_of_mem _ hx3)

theorem modeMin_spec (vs : List String) (hne : vs ≠ []) :
    ∃ m, modeMin vs = some m ∧ m ∈ vs ∧
      ∀ x ∈ vs, vs.count x ≤ vs.count m ∧ (vs.count x = vs.count m → m ≤ x) := by
  unfold modeMin
  cases hd : vs.dedup with
  | nil => exact absurd ((List.dedup_eq_nil vs).mp hd) hne
  | cons c cs =>
    obtain ⟨hmem, hspec⟩ := foldl_betterMode_spec vs cs c
    refine ⟨_, rfl, ?_, ?_⟩
    · have hm : cs.foldl (betterMode vs) c ∈ vs.dedup := hd ▸ hmem
      exact List.mem_dedup.mp hm
    · intro x hx
      have hx2 : x ∈ vs.dedup := List.mem_dedup.mpr hx
      rw [hd] at hx2
      exact hspec x hx2

theorem dominantRegion_spec (regs : List RegionVal) :
    (regs.filterMap id = [] → dominantRegion regs = "Unknown") ∧
    (regs.filterMap id ≠ [] →
      dominantRegion regs ∈ regs.filterMap id ∧
      ∀ x ∈ regs.filterMap id,
        (regs.filterMap id).count x ≤ (regs.filterMap id).count (dominantRegion regs) ∧
        ((regs.filterMap id).count x = (regs.filterMap id).count (dominantRegion regs) →
          dominantRegion regs ≤ x)) := by
  constructor
  · intro he
    unfold dominantRegion
    rw [he]
    rfl
  · intro hne
    obtain ⟨m, hm, hmem, hspec⟩ := modeMin_spec (regs.filterMap id) hne
    unfold dominantRegion
    rw [hm]
    exact ⟨hmem, hspec⟩

/-- C10: the dominant region of a customer's result is the most frequent
non-null region value of the group, with count ties broken toward the
lexicographically smallest value (pandas `mode` drops nulls and returns the
tied modes sorted, and the source takes element 0); when the group has no
non-null region at all, the dominant region is "Unknown". -/
theorem C10_dominant_region (rows : List RawRow) (r : RiskResult)
    (h : r ∈ compute_risk_scoring rows) :
    (nonNullRegions (groupOf rows r.CIF) = [] → r.region = "Unknown") ∧
    (nonNullRegions (groupOf rows r.CIF) ≠ [] →
      r.region ∈ nonNullRegions (groupOf rows r.CIF) ∧
      ∀ x ∈ nonNullRegions (groupOf rows r.CIF),
        (nonNullRegions (groupOf rows r.CIF)).count x
            ≤ (nonNullRegions (groupOf rows r.CIF)).count r.region ∧
        ((nonNullRegions (groupOf rows r.CIF)).count x
              = (nonNullRegions (groupOf rows r.CIF)).count r.region →
          r.region ≤ x)) := by
  obtain ⟨c, hc, rfl⟩ := List.mem_map.mp h
  dsimp only
  simp only [nonNullRegions]
  exact dominantRegion_spec ((groupOf rows c).map (fun x => x.REGION))

/-- Witness for C10 on a three-row group whose regions are B, B, A: the
dominant region is B, the strictly most frequent value. -/
theorem C10_dominant_region_witness :
    ({
      CIF := "C1",
      score := 1,
      label := "Transient",
      region := "B",
      cohort := none } : RiskResult).region ∈
      nonNullRegions (groupOf
        [{
          DEVICE_ID := none,
          CIF := "C1",
          LATITUDE := none,
          LONGITUDE := none,
          created := none,
          REGION := some "B" },
        {
          DEVICE_ID := none,
          CIF := "C1",
          LATITUDE := none,
          LONGITUDE := none,
          created := none,
          REGION := some "B" },
        {
          DEVICE_ID := none,
          CIF := "C1",
          LATITUDE := none,
          LONGITUDE := none,
          created := none,
          REGION := some "A" }]
        ({
          CIF := "C1",
          score := 1,
          label := "Transient",
          region := "B",
          cohort := none } : RiskResult).CIF) := by
  have h := (C10_dominant_region
    [{
      DEVICE_ID := none,
      CIF := "C1",
      LATITUDE := none,
      LONGITUDE := none,
      created := none,
      REGION := some "B" },
    {
      DEVICE_ID := none,
      CIF := "C1",
      LATITUDE := none,
      LONGITUDE := none,
      created := none,
      REGION := some "B" },
    {
      DEVICE_ID := none,
      CIF := "C1",
      LATITUDE := none,
      LONGITUDE := none,
      created := none,
      REGION := some "A" }]
    {
      CIF := "C1",
      score := 1,
      label := "Transient",
      region := "B",
      cohort := none } (by decide)).2 (by decide)
  exact h.1

end RiskPipeline
